import Mathlib

set_option maxHeartbeats 1000000

/-
Shallow embedding of the proxybench package (src/proxybench.go, final
revision). Machine floats (SampleRate) are modelled as exact rationals,
time.Duration (int64 nanoseconds) as Int, the Go string-keyed address map as
an association list with the Go zero-value "" on a missing key. External
library calls (time.ParseDuration, the network) are parameters or abstract
outcome values; everything else follows the source line by line.
-/

namespace Proxybench

/-- The configured protocol names, src/proxybench.go line 29:
`protocols = []string{"https", "obfs4"}`. -/
def protocols : List String := ["https", "obfs4"]

/-- `type Proxy struct` (lines 33-37): protocol-keyed addresses plus provider
and datacenter labels. The Go `map[string]string` is an association list. -/
structure Proxy where
  Addrs : List (String × String)
  Provider : String
  DataCenter : String
deriving DecidableEq, Repr

/-- Go map read `m[k]`: the value of the first matching key, or the string
zero value `""` when the key is absent. -/
def addrLookup (m : List (String × String)) (k : String) : String :=
  match m.find? (fun kv => kv.1 == k) with
  | some kv => kv.2
  | none => ""

/-- `type proxy struct` (lines 44-48): the per-trial proxy — base endpoint,
chosen protocol name, and the address looked up for that protocol. -/
structure PTrial where
  base : Proxy
  protocol : String
  addr : String
deriving DecidableEq, Repr

/-- `withRandomProtocol` (lines 39-42). The draw `rand.Intn(len(protocols))`
is modelled by the drawn index `i`, uniform over `Fin protocols.length`. -/
def withRandomProtocol (p : Proxy) (i : Fin protocols.length) : PTrial :=
  let protocol := protocols.get i
  ⟨p, protocol, addrLookup p.Addrs protocol⟩

/-- Description of the layering of the connection a dial establishes. -/
inductive ConnDesc
  | tcp (addr : String)
  | tls (insecureSkipVerify : Bool) (underlying : ConnDesc)
  | obfs4conn (cert : String) (iatMode : String) (underlying : ConnDesc)
deriving DecidableEq, Repr

/-- The fixed obfs4 shared secret passed as the `cert` argument (line 244). -/
def obfs4Cert : String := "1LYfzzTyz7xsu0bTBUJacwDTLN3NU/gNSjC+pfdRVNuh/LYmtbLOlhZwCfNTKyUVvfMTWQ"

/-- `dialTLS` (lines 225-234): plain TCP to `p.addr`, wrapped in a TLS client
session with `InsecureSkipVerify: true`. -/
def dialTLS (p : PTrial) : ConnDesc :=
  ConnDesc.tls true (ConnDesc.tcp p.addr)

/-- `dialOBFS4` (lines 236-252): an obfs4 client with the fixed cert and
`iat-mode "0"`, dialed over plain TCP (`netx.Dial`) to `p.addr`; the resulting
channel is returned directly, with no further wrapping. -/
def dialOBFS4 (p : PTrial) : ConnDesc :=
  ConnDesc.obfs4conn obfs4Cert "0" (ConnDesc.tcp p.addr)

/-- `dial` (lines 214-223): dispatch on the chosen protocol name; an unknown
name is an error. -/
def dial (p : PTrial) : Except String ConnDesc :=
  match p.protocol with
  | "https" => Except.ok (dialTLS p)
  | "obfs4" => Except.ok (dialOBFS4 p)
  | other => Except.error ("Unknown protocol " ++ other)

/-- Whether the outermost layer of the connection is a TLS client session. -/
def isTLSTop : ConnDesc → Bool
  | ConnDesc.tls _ _ => true
  | _ => false

/-- The address of the innermost raw transport of a connection description. -/
def baseAddr : ConnDesc → String
  | ConnDesc.tcp a => a
  | ConnDesc.tls _ u => baseAddr u
  | ConnDesc.obfs4conn _ _ u => baseAddr u

/-- `type Opts struct` (lines 50-57). `SampleRate float64` is a rational,
`Period time.Duration` is Int nanoseconds. -/
@[ext]
structure Opts where
  SampleRate : Rat
  Period : Int
  PeriodString : String
  Proxies : List Proxy
  URLs : List String
  UpdateURL : String
deriving DecidableEq, Repr

/-- `1 * time.Hour` in nanoseconds. -/
def hourNS : Int := 3600000000000

/-- Default update URL (line 71). -/
def defaultUpdateURL : String := "https://s3.amazonaws.com/lantern/proxybench.json"

/-- Default origin URL list (lines 74-80). -/
def defaultURLs : List String :=
  ["https://www.google.com/humans.txt",
   "https://www.facebook.com/humans.txt",
   "https://67.media.tumblr.com/avatar_4adfafc4c768_48.png",
   "http://s.ytimg.com/yts/cssbin/www-pageframe-webp-vfl37g48Z.css",
   "http://149.154.167.91/"]

/-- Testing-mode origin URL list (line 85). -/
def testingURLs : List String := ["http://i.ytimg.com/vi/video_id/0.jpg"]

/-- The synthetic proxy installed in testing mode (line 86). -/
def testingProxyFor (tp : String) : Proxy :=
  ⟨[("https", tp)], "testingProvider", "testingDC"⟩

/-- `applyDefaults` (lines 59-88). `parseDur` models `time.ParseDuration`
(`none` = parse error); Go's multi-assignment `opts.Period, _ = ...` stores
the returned duration value, which is 0 on error, and discards the error.
`tp` models the package-level `testingProxy`; testing mode is `tp ≠ ""`. -/
def applyDefaults (parseDur : String → Option Int) (tp : String) (o : Opts) : Opts :=
  let o1 := if o.PeriodString ≠ "" then { o with Period := (parseDur o.PeriodString).getD 0 } else o
  let o2 := if o1.Period ≤ 0 then { o1 with Period := hourNS } else o1
  let o3 := if o2.SampleRate ≤ 0 then { o2 with SampleRate := mkRat 1 20 } else o2
  let o4 := if o3.UpdateURL = "" ∧ tp = "" then { o3 with UpdateURL := defaultUpdateURL } else o3
  let o5 := if o4.URLs = [] then { o4 with URLs := defaultURLs } else o4
  if tp ≠ "" then
    { o5 with SampleRate := 1, URLs := testingURLs, Proxies := [testingProxyFor tp] }
  else o5

/-- The period value after the first two steps of `applyDefaults` (lines
61-66): the parsed period (0 on parse error) when a period string is present,
else the prior period; replaced by one hour when not positive. -/
def periodAfter (parseDur : String → Option Int) (o : Opts) : Int :=
  let v := if o.PeriodString ≠ "" then (parseDur o.PeriodString).getD 0 else o.Period
  if v ≤ 0 then hourNS else v

/-- Abstract outcome of the HTTP GET against the update URL: network error, or
a response with a status code and (when the body is decoded) the decoded
`Opts` (`none` = JSON decode error). -/
inductive FetchResult
  | netError
  | response (status : Nat) (decoded : Option Opts)
deriving DecidableEq, Repr

/-- `fetchUpdate` (lines 254-278): no update URL, network error, non-200
status or decode error all return the previous options; a 200 response whose
body decodes replaces them by the decoded options with defaults applied. The
return type is `Opts`, not an error-carrying type: failure is never
propagated. -/
def fetchUpdate (parseDur : String → Option Int) (tp : String) (o : Opts)
    (r : FetchResult) : Opts :=
  if o.UpdateURL = "" then o
  else
    match r with
    | FetchResult.netError => o
    | FetchResult.response status decoded =>
      if status ≠ 200 then o
      else
        match decoded with
        | none => o
        | some newOpts => applyDefaults parseDur tp newOpts

/-- Resource events of the bridge's accepted-connection handler. -/
inductive Event
  | getBuf
  | putBuf
  | closeIn
deriving DecidableEq, Repr

/-- Whether a dial attempt produced a connection. -/
def dialOk : Except String ConnDesc → Bool
  | Except.ok _ => true
  | Except.error _ => false

/-- `doLocalProxy` (lines 194-212) as its ordered resource-event trace.
`defer in.Close()` is registered first, so it runs last; on dial failure only
that defer has been registered. On success two buffers are checked out, the
relay runs (its per-direction errors `outErr`/`inErr` are only logged), and
the LIFO defers return both buffers and close the inbound connection. -/
def doLocalProxyEvents (dialResult : Except String ConnDesc)
    (outErr inErr : Bool) : List Event :=
  match dialResult with
  | Except.error _ => [Event.closeIn]
  | Except.ok _ =>
    let _ := outErr
    let _ := inErr
    [Event.getBuf, Event.getBuf, Event.putBuf, Event.putBuf, Event.closeIn]

/-- Abstract outcome of one trial's HTTP exchange (lines 154-169): request
construction failure, transport-level failure, or a response with a status. -/
inductive ReqOutcome
  | buildError
  | transportError
  | response (status : Nat)
deriving DecidableEq, Repr

/-- The Reporter invocations of `doRequest` (lines 129-176), each carrying the
elapsed time and the `proxybench_success` flag. Build and transport failures
return before reporting; a 403 or 500 status returns before reporting; any
other response drains the body and reports once with success = true. -/
def doRequestReports (outcome : ReqOutcome) (elapsed : Int) : List (Int × Bool) :=
  match outcome with
  | ReqOutcome.buildError => []
  | ReqOutcome.transportError => []
  | ReqOutcome.response status =>
    if status = 403 ∨ status = 500 then [] else [(elapsed, true)]

/-- The sleep computation of `Start` (line 103):
`float64(period) * (1.0 + (rand.Float64()-1.0)/5)`, with the draw `r` the
value of `rand.Float64()`, uniform in `[0,1)`. -/
def jitteredSleep (period : Rat) (r : Rat) : Rat :=
  period * (1 + (r - 1) / 5)

/-- A `time.ParseDuration` model under which every string fails to parse
(used at concrete inputs such as `"garbage"`, which the real parser rejects). -/
def noParse : String → Option Int := fun _ => none

/-- Concrete options with an update URL configured (for witnesses). -/
def sampleOptsA : Opts := ⟨0, 0, "", [], [], "http://u"⟩

/-- Concrete well-formed options (for witnesses). -/
def sampleOptsB : Opts := ⟨mkRat 1 2, 60, "", [], ["http://a"], ""⟩

/-- Concrete options with a sample rate above 1 (for claim C7). -/
def oC7 : Opts := ⟨2, 1, "", [], ["u"], "http://u"⟩

/-- Concrete options with a positive period and an unparsable period string
(for claim C10). -/
def oC10 : Opts := ⟨mkRat 1 2, 300000000000, "garbage", [], ["u"], "http://u"⟩

lemma dial_https_eq (b : Proxy) (a : String) :
    dial ⟨b, "https", a⟩ = Except.ok (ConnDesc.tls true (ConnDesc.tcp a)) := rfl

lemma dial_obfs4_eq (b : Proxy) (a : String) :
    dial ⟨b, "obfs4", a⟩ =
      Except.ok (ConnDesc.obfs4conn obfs4Cert "0" (ConnDesc.tcp a)) := rfl

/-- C1 counterexample: for a concrete proxy with an obfs4 address, the
connection returned by the dialer is the obfuscated channel over plain TCP
with no TLS layer on top, so it is not "the obfuscated channel wrapped in a
TLS client session". -/
theorem obfs4_dial_not_tls_cex :
    dial ⟨⟨[("obfs4", "1.2.3.4:443")], "p", "dc"⟩, "obfs4", "1.2.3.4:443"⟩ =
      Except.ok (ConnDesc.obfs4conn obfs4Cert "0" (ConnDesc.tcp "1.2.3.4:443")) ∧
    isTLSTop (ConnDesc.obfs4conn obfs4Cert "0" (ConnDesc.tcp "1.2.3.4:443")) = false :=
  ⟨rfl, rfl⟩

/-- C1 (amended): for every trial in which the obfs4 protocol is chosen, the
dial establishes the pluggable-transport channel (fixed cert, iat-mode 0)
over plain TCP to the proxy's address and returns it directly; the returned
connection is never wrapped in a TLS client session. -/
theorem obfs4_dial_plain_transport (p : PTrial) (h : p.protocol = "obfs4") :
    dial p = Except.ok (ConnDesc.obfs4conn obfs4Cert "0" (ConnDesc.tcp p.addr)) ∧
    ∀ c, dial p = Except.ok c → isTLSTop c = false := by
  obtain ⟨b, prot, a⟩ := p
  simp only at h
  subst h
  refine ⟨dial_obfs4_eq b a, ?_⟩
  intro c hc
  rw [dial_obfs4_eq] at hc
  cases hc
  rfl

/-- Witness for C1's amended theorem at a concrete obfs4 trial. -/
theorem obfs4_dial_plain_transport_witness :
    dial ⟨⟨[], "p", "d"⟩, "obfs4", "x:1"⟩ =
      Except.ok (ConnDesc.obfs4conn obfs4Cert "0" (ConnDesc.tcp "x:1")) :=
  (obfs4_dial_plain_transport ⟨⟨[], "p", "d"⟩, "obfs4", "x:1"⟩ rfl).1

/-- C2 counterexample: a proxy exposing only a TLS ("https") address does not
always get TLS-direct — the draw with index 1 chooses "obfs4", a protocol the
proxy does not expose. -/
theorem protocol_choice_ignores_addrs_cex :
    (withRandomProtocol ⟨[("https", "1.2.3.4:443")], "p", "dc"⟩
      ⟨1, by decide⟩).protocol ≠ "https" := by decide

/-- C2 (amended): the per-trial protocol choice is independent of the proxy's
available addresses: the protocol is exactly the configured protocol name at
the uniformly drawn index (so each configured name is chosen with equal
probability 1/len(protocols)), and the dial address is only then looked up in
the proxy's address map. -/
theorem protocol_choice_uniform_configured (p : Proxy) (i : Fin protocols.length) :
    (withRandomProtocol p i).protocol = protocols.get i ∧
    (withRandomProtocol p i).addr = addrLookup p.Addrs (protocols.get i) :=
  ⟨rfl, rfl⟩

/-- C3: for every configured period P > 0 and every possible draw
r ∈ [0,1) of `rand.Float64()`, the computed sleep lies in [0.8×P, P): the
jitter factor (r−1)/5 is confined to [−0.2, 0), so the sleep never exceeds P,
contradicting the ±20% two-sided jitter the claim (and the code's own
comment) describe. -/
theorem sleep_jitter_below_period (P r : Rat) (hP : 0 < P) (h0 : 0 ≤ r)
    (h1 : r < 1) :
    (4 / 5) * P ≤ jitteredSleep P r ∧ jitteredSleep P r < P := by
  unfold jitteredSleep
  constructor <;> nlinarith

/-- Witness for C3's theorem at P = 10, r = 1/2 (sleep = 9 < 10). -/
theorem sleep_jitter_below_period_witness :
    (4 / 5 : Rat) * 10 ≤ jitteredSleep 10 (1 / 2) ∧ jitteredSleep 10 (1 / 2) < 10 :=
  sleep_jitter_below_period 10 (1 / 2) (by norm_num) (by norm_num) (by norm_num)

/-- C4: fetchUpdate returns the previous options unchanged when no update
source is configured and on every failure (network error, non-200 status,
decode error); on a fully successful fetch it returns the decoded options
with defaults applied, fully replacing the old value. Its return type carries
no error: refresh failure is never propagated. -/
theorem fetchUpdate_soft_replace (pd : String → Option Int) (tp : String)
    (o : Opts) (r : FetchResult) :
    (o.UpdateURL = "" → fetchUpdate pd tp o r = o) ∧
    (r = FetchResult.netError → fetchUpdate pd tp o r = o) ∧
    (∀ s d, r = FetchResult.response s d → s ≠ 200 → fetchUpdate pd tp o r = o) ∧
    (∀ s, r = FetchResult.response s none → fetchUpdate pd tp o r = o) ∧
    (∀ n, o.UpdateURL ≠ "" → r = FetchResult.response 200 (some n) →
      fetchUpdate pd tp o r = applyDefaults pd tp n) := by
  unfold fetchUpdate
  by_cases hu : o.UpdateURL = "" <;> cases r <;> simp_all

/-- Witness for C4's theorem: a network error leaves concrete options
unchanged, and a decoded 200 response replaces them with defaults applied. -/
theorem fetchUpdate_soft_replace_witness :
    fetchUpdate noParse "" sampleOptsA FetchResult.netError = sampleOptsA ∧
    fetchUpdate noParse "" sampleOptsA (FetchResult.response 200 (some sampleOptsB)) =
      applyDefaults noParse "" sampleOptsB :=
  ⟨(fetchUpdate_soft_replace noParse "" sampleOptsA FetchResult.netError).2.1 rfl,
   (fetchUpdate_soft_replace noParse "" sampleOptsA
      (FetchResult.response 200 (some sampleOptsB))).2.2.2.2 sampleOptsB
      (by decide) rfl⟩

/-- C5: on every exit path of the accepted-connection handler the inbound
connection is closed, buffer checkouts and returns are balanced, no buffer is
checked out on dial failure, and both buffers are returned after a relay --
regardless of per-direction relay errors. -/
theorem doLocalProxy_resource_balance (d : Except String ConnDesc)
    (outErr inErr : Bool) :
    (doLocalProxyEvents d outErr inErr).count Event.getBuf =
      (doLocalProxyEvents d outErr inErr).count Event.putBuf ∧
    Event.closeIn ∈ doLocalProxyEvents d outErr inErr ∧
    (doLocalProxyEvents d outErr inErr).count Event.getBuf =
      (if dialOk d then 2 else 0) := by
  cases d <;> simp [doLocalProxyEvents, dialOk]

/-- C8: a trial whose HTTP response has status 403 or 500 is dropped without
reporting: the Reporter invocation list is empty. -/
theorem doRequest_drops_403_500 (s : Nat) (e : Int) (h : s = 403 ∨ s = 500) :
    doRequestReports (ReqOutcome.response s) e = [] := by
  rcases h with h | h <;> subst h <;> rfl

/-- Witness for C8's theorem at statuses 403 and 500. -/
theorem doRequest_drops_403_500_witness :
    doRequestReports (ReqOutcome.response 403) 5 = [] ∧
    doRequestReports (ReqOutcome.response 500) 5 = [] :=
  ⟨doRequest_drops_403_500 403 5 (Or.inl rfl),
   doRequest_drops_403_500 500 5 (Or.inr rfl)⟩

/-- C9: when the proxy's address map has no entry for the drawn protocol
name, the per-trial proxy's dial address is the empty string (the map's
missing-key default), and dialing still proceeds: the dial succeeds in
producing a connection plan whose innermost transport targets the empty
address, rather than skipping or falling back. -/
theorem missing_addr_empty_dial (p : Proxy) (i : Fin protocols.length)
    (h : p.Addrs.find? (fun kv => kv.1 == protocols.get i) = none) :
    (withRandomProtocol p i).addr = "" ∧
    ∃ c, dial (withRandomProtocol p i) = Except.ok c ∧ baseAddr c = "" := by
  have ha : addrLookup p.Addrs (protocols.get i) = "" := by
    unfold addrLookup
    rw [h]
  refine ⟨ha, ?_⟩
  fin_cases i
  · refine ⟨ConnDesc.tls true (ConnDesc.tcp ""), ?_, rfl⟩
    show dial ⟨p, "https", addrLookup p.Addrs "https"⟩ = _
    rw [show addrLookup p.Addrs "https" = "" from ha]
    exact dial_https_eq p ""
  · refine ⟨ConnDesc.obfs4conn obfs4Cert "0" (ConnDesc.tcp ""), ?_, rfl⟩
    show dial ⟨p, "obfs4", addrLookup p.Addrs "obfs4"⟩ = _
    rw [show addrLookup p.Addrs "obfs4" = "" from ha]
    exact dial_obfs4_eq p ""

/-- Witness for C9's theorem at a proxy with an empty address map. -/
theorem missing_addr_empty_dial_witness :
    (withRandomProtocol ⟨[], "p", "d"⟩ ⟨1, by decide⟩).addr = "" ∧
    ∃ c, dial (withRandomProtocol ⟨[], "p", "d"⟩ ⟨1, by decide⟩) = Except.ok c ∧
      baseAddr c = "" :=
  missing_addr_empty_dial ⟨[], "p", "d"⟩ ⟨1, by decide⟩ rfl

lemma ad_PeriodString (pd : String → Option Int) (tp : String) (o : Opts) :
    (applyDefaults pd tp o).PeriodString = o.PeriodString := by
  obtain ⟨sr, per, ps, prx, urls, uu⟩ := o
  simp only [applyDefaults]
  split_ifs <;> rfl

lemma ad_Period (pd : String → Option Int) (tp : String) (o : Opts) :
    (applyDefaults pd tp o).Period = periodAfter pd o := by
  obtain ⟨sr, per, ps, prx, urls, uu⟩ := o
  simp only [applyDefaults, periodAfter]
  split_ifs <;> simp_all

lemma ad_SampleRate (pd : String → Option Int) (tp : String) (o : Opts) :
    (applyDefaults pd tp o).SampleRate =
      if tp ≠ "" then 1
      else if o.SampleRate ≤ 0 then mkRat 1 20 else o.SampleRate := by
  obtain ⟨sr, per, ps, prx, urls, uu⟩ := o
  simp only [applyDefaults]
  split_ifs <;> simp_all

lemma ad_UpdateURL (pd : String → Option Int) (tp : String) (o : Opts) :
    (applyDefaults pd tp o).UpdateURL =
      if o.UpdateURL = "" ∧ tp = "" then defaultUpdateURL else o.UpdateURL := by
  obtain ⟨sr, per, ps, prx, urls, uu⟩ := o
  simp only [applyDefaults]
  split_ifs <;> simp_all

lemma ad_URLs (pd : String → Option Int) (tp : String) (o : Opts) :
    (applyDefaults pd tp o).URLs =
      if tp ≠ "" then testingURLs
      else if o.URLs = [] then defaultURLs else o.URLs := by
  obtain ⟨sr, per, ps, prx, urls, uu⟩ := o
  simp only [applyDefaults]
  split_ifs <;> simp_all

lemma ad_Proxies (pd : String → Option Int) (tp : String) (o : Opts) :
    (applyDefaults pd tp o).Proxies =
      if tp ≠ "" then [testingProxyFor tp] else o.Proxies := by
  obtain ⟨sr, per, ps, prx, urls, uu⟩ := o
  simp only [applyDefaults]
  split_ifs <;> simp_all

lemma periodAfter_pos (pd : String → Option Int) (o : Opts) :
    0 < periodAfter pd o := by
  simp only [periodAfter, hourNS]
  split_ifs <;> omega

lemma periodAfter_applyDefaults (pd : String → Option Int) (tp : String)
    (o : Opts) :
    periodAfter pd (applyDefaults pd tp o) = periodAfter pd o := by
  have hPS := ad_PeriodString pd tp o
  have hP := ad_Period pd tp o
  by_cases hps : o.PeriodString = ""
  · have h1 : periodAfter pd (applyDefaults pd tp o) =
        if (applyDefaults pd tp o).Period ≤ 0 then hourNS
        else (applyDefaults pd tp o).Period := by
      simp [periodAfter, hPS, hps]
    have hpos := periodAfter_pos pd o
    rw [h1, hP, if_neg (by omega)]
  · have h1 : periodAfter pd (applyDefaults pd tp o) =
        if (pd o.PeriodString).getD 0 ≤ 0 then hourNS
        else (pd o.PeriodString).getD 0 := by
      simp [periodAfter, hPS, hps]
    have h2 : periodAfter pd o =
        if (pd o.PeriodString).getD 0 ≤ 0 then hourNS
        else (pd o.PeriodString).getD 0 := by
      simp [periodAfter, hps]
    rw [h1, h2]

/-- C6: applyDefaults is idempotent — applying it twice yields exactly the
options value of applying it once, for every input, every duration parser and
every testing-mode setting. -/
theorem applyDefaults_idempotent (pd : String → Option Int) (tp : String)
    (o : Opts) :
    applyDefaults pd tp (applyDefaults pd tp o) = applyDefaults pd tp o := by
  have hmk : ¬ ((mkRat 1 20 : Rat) ≤ 0) := by decide
  have hdu : ¬ (defaultUpdateURL = "") := by decide
  have hdl : ¬ (defaultURLs = []) := by decide
  have htl : ¬ (testingURLs = []) := by decide
  ext
  · rw [ad_SampleRate, ad_SampleRate]
    split_ifs <;> simp_all
  · rw [ad_Period, ad_Period, periodAfter_applyDefaults]
  · rw [ad_PeriodString, ad_PeriodString]
  · rw [ad_Proxies, ad_Proxies]
    split_ifs <;> simp_all
  · rw [ad_URLs, ad_URLs]
    split_ifs <;> simp_all
  · rw [ad_UpdateURL, ad_UpdateURL]
    split_ifs <;> simp_all

/-- C7 counterexample: an input sample rate of 2 is preserved by
applyDefaults, so the resulting sample rate is not a probability in [0,1]. -/
theorem sampleRate_above_one_cex :
    ¬ (applyDefaults noParse "" oC7).SampleRate ≤ 1 := by decide

/-- C7 (amended): after applyDefaults the sample rate and the period are
positive for every input, including zero or negative values; the sample rate
lies in (0,1] whenever the input sample rate is at most 1 (an input above 1
is kept unchanged). -/
theorem applyDefaults_positive_rate_period (pd : String → Option Int)
    (tp : String) (o : Opts) :
    0 < (applyDefaults pd tp o).SampleRate ∧
    0 < (applyDefaults pd tp o).Period ∧
    (o.SampleRate ≤ 1 → (applyDefaults pd tp o).SampleRate ≤ 1) := by
  have hmk0 : (0 : Rat) < mkRat 1 20 := by decide
  have hmk1 : (mkRat 1 20 : Rat) ≤ 1 := by decide
  refine ⟨?_, ?_, ?_⟩
  · rw [ad_SampleRate]
    split_ifs with h1 h2
    · norm_num
    · exact hmk0
    · push_neg at h2
      exact h2
  · rw [ad_Period]
    exact periodAfter_pos pd o
  · intro hle
    rw [ad_SampleRate]
    split_ifs with h1 h2
    · norm_num
    · exact hmk1
    · exact hle

/-- Witness for C7's amended theorem at concrete malformed options (rate 0,
period 60ns kept, rate defaulted to 1/20 ∈ (0,1]). -/
theorem applyDefaults_positive_rate_period_witness :
    0 < (applyDefaults noParse "" sampleOptsA).SampleRate ∧
    0 < (applyDefaults noParse "" sampleOptsA).Period ∧
    (applyDefaults noParse "" sampleOptsA).SampleRate ≤ 1 :=
  ⟨(applyDefaults_positive_rate_period noParse "" sampleOptsA).1,
   (applyDefaults_positive_rate_period noParse "" sampleOptsA).2.1,
   (applyDefaults_positive_rate_period noParse "" sampleOptsA).2.2 (by decide)⟩

/-- C10 counterexample: with a positive prior period (300s) and an unparsable
period string, the numeric period does not keep its prior value — the parse
result 0 overwrites it and the 1-hour default is applied. -/
theorem period_parse_error_cex :
    (applyDefaults noParse "" oC10).Period = 3600000000000 ∧
    (applyDefaults noParse "" oC10).Period ≠ oC10.Period := by decide

/-- C10 (amended): applyDefaults is total and discards period-string parse
errors; for every options value whose period string is non-empty but
unparsable, the numeric period is overwritten with the parser's zero value,
so the 1-hour default is then always applied, whatever the prior period. -/
theorem period_parse_error_defaults (pd : String → Option Int) (tp : String)
    (o : Opts) (h1 : o.PeriodString ≠ "") (h2 : pd o.PeriodString = none) :
    (applyDefaults pd tp o).Period = hourNS := by
  obtain ⟨sr, per, ps, prx, urls, uu⟩ := o
  simp only at h1 h2
  simp only [applyDefaults, h1, h2]
  split_ifs <;> simp_all

/-- Witness for C10's amended theorem at the concrete options with period
string "garbage". -/
theorem period_parse_error_defaults_witness :
    (applyDefaults noParse "" oC10).Period = hourNS :=
  period_parse_error_defaults noParse "" oC10 (by decide) rfl

end Proxybench
